import Mathlib

/-!
Verification development for the battleo simulation engine.

The Rust source is embedded shallowly over the rationals: every f64 value
is modelled as a rational number, random draws become explicit parameters,
and the square-root function (whose results feed divisions and comparisons)
is abstracted as an oracle parameter constrained in theorems by the
defining equations of the real square root at the points where it is used.
-/

namespace Battleo

/-- The heritable trait vector of an agent, from src/genes.rs (struct Genes). -/
structure Genes where
  speed : ℚ
  senseRange : ℚ
  size : ℚ
  energyEfficiency : ℚ
  reproductionThreshold : ℚ
  mutationRate : ℚ
  aggression : ℚ
  colorHue : ℚ
  isPredator : ℚ
  huntingSpeed : ℚ
  attackPower : ℚ
  defense : ℚ
  stealth : ℚ
  packMentality : ℚ
  territorySize : ℚ
  metabolism : ℚ
  intelligence : ℚ
  stamina : ℚ
  deriving Repr, DecidableEq

/-- The blend step of Genes::mutate_gene (src/genes.rs lines 111-112):
gene = gene1 * blend_factor + gene2 * (1 - blend_factor). -/
def blendGene (gene1 gene2 blend : ℚ) : ℚ :=
  gene1 * blend + gene2 * (1 - blend)

/-- The value of a gene in Genes::mutate_gene before the clamp chain
(src/genes.rs lines 110-119): the parent blend, plus Gaussian noise when the
uniform draw mutU falls below mutation_rate. -/
def preClampGene (gene1 gene2 mutationRate blend mutU noise : ℚ) : ℚ :=
  let gene := blendGene gene1 gene2 blend
  if mutU < mutationRate then gene + noise else gene

/-- The clamp chain of Genes::mutate_gene (src/genes.rs lines 122-162),
transcribed arm for arm. In the Rust source each arm pattern such as
sense_range is a fresh binding of the single matched value, so the arms are
tried top to bottom against the same number regardless of which trait is
being mutated; the trait names on the arms have no selective effect. -/
def clampGene (gene : ℚ) : ℚ :=
  if gene < 1/10 then 1/10
  else if gene > 3 then 3
  else if gene < 5 then 5
  else if gene > 150 then 150
  else if gene < 3/10 then 3/10
  else if gene > 5/2 then 5/2
  else if gene < 1/10 then 1/10
  else if gene > 5/2 then 5/2
  else if gene < 10 then 10
  else if gene > 200 then 200
  else if gene < 1/1000 then 1/1000
  else if gene > 3/10 then 3/10
  else if gene < 0 then 0
  else if gene > 1 then 1
  else if gene < 0 then 0
  else if gene > 360 then 360
  else if gene < 0 then 0
  else if gene > 1 then 1
  else if gene < 1/2 then 1/2
  else if gene > 3 then 3
  else if gene < 1/10 then 1/10
  else if gene > 3 then 3
  else if gene < 1/10 then 1/10
  else if gene > 3 then 3
  else if gene < 0 then 0
  else if gene > 1 then 1
  else if gene < 0 then 0
  else if gene > 1 then 1
  else if gene < 10 then 10
  else if gene > 300 then 300
  else if gene < 1/10 then 1/10
  else if gene > 3 then 3
  else if gene < 1/10 then 1/10
  else if gene > 3 then 3
  else if gene < 1/10 then 1/10
  else if gene > 3 then 3
  else gene

/-- Genes::mutate_gene (src/genes.rs lines 109-163): blend the parents,
optionally add mutation noise, then run the clamp chain. -/
def mutateGene (gene1 gene2 mutationRate blend mutU noise : ℚ) : ℚ :=
  clampGene (preClampGene gene1 gene2 mutationRate blend mutU noise)

/-- The random draws consumed by one mutate_gene call: the blend factor from
[0.3, 0.7), the uniform draw from [0, 1) compared against mutation_rate, and
the Gaussian noise sample. -/
structure GeneDraw where
  blend : ℚ
  mutU : ℚ
  noise : ℚ
  deriving Repr, DecidableEq

/-- One mutate_gene call with its draws packed in a GeneDraw. -/
def mutateGeneD (gene1 gene2 mutationRate : ℚ) (d : GeneDraw) : ℚ :=
  mutateGene gene1 gene2 mutationRate d.blend d.mutU d.noise

/-- The 18 independent per-trait draws consumed by one Genes::inherit_from
call, in field order. -/
structure GeneDraws where
  speed : GeneDraw
  senseRange : GeneDraw
  size : GeneDraw
  energyEfficiency : GeneDraw
  reproductionThreshold : GeneDraw
  mutationRate : GeneDraw
  aggression : GeneDraw
  colorHue : GeneDraw
  isPredator : GeneDraw
  huntingSpeed : GeneDraw
  attackPower : GeneDraw
  defense : GeneDraw
  stealth : GeneDraw
  packMentality : GeneDraw
  territorySize : GeneDraw
  metabolism : GeneDraw
  intelligence : GeneDraw
  stamina : GeneDraw
  deriving Repr, DecidableEq

/-- Genes::inherit_from (src/genes.rs lines 57-107): every trait is produced
by mutate_gene on the two parent values. -/
def inheritFrom (g other : Genes) (mutationRate : ℚ) (d : GeneDraws) : Genes :=
  { speed := mutateGeneD g.speed other.speed mutationRate d.speed
    senseRange := mutateGeneD g.senseRange other.senseRange mutationRate d.senseRange
    size := mutateGeneD g.size other.size mutationRate d.size
    energyEfficiency :=
      mutateGeneD g.energyEfficiency other.energyEfficiency mutationRate d.energyEfficiency
    reproductionThreshold :=
      mutateGeneD g.reproductionThreshold other.reproductionThreshold mutationRate
        d.reproductionThreshold
    mutationRate := mutateGeneD g.mutationRate other.mutationRate mutationRate d.mutationRate
    aggression := mutateGeneD g.aggression other.aggression mutationRate d.aggression
    colorHue := mutateGeneD g.colorHue other.colorHue mutationRate d.colorHue
    isPredator := mutateGeneD g.isPredator other.isPredator mutationRate d.isPredator
    huntingSpeed := mutateGeneD g.huntingSpeed other.huntingSpeed mutationRate d.huntingSpeed
    attackPower := mutateGeneD g.attackPower other.attackPower mutationRate d.attackPower
    defense := mutateGeneD g.defense other.defense mutationRate d.defense
    stealth := mutateGeneD g.stealth other.stealth mutationRate d.stealth
    packMentality := mutateGeneD g.packMentality other.packMentality mutationRate d.packMentality
    territorySize := mutateGeneD g.territorySize other.territorySize mutationRate d.territorySize
    metabolism := mutateGeneD g.metabolism other.metabolism mutationRate d.metabolism
    intelligence := mutateGeneD g.intelligence other.intelligence mutationRate d.intelligence
    stamina := mutateGeneD g.stamina other.stamina mutationRate d.stamina }

/-- The clamp chain is first-match-wins over one shared value, so its image
collapses to three constants: values below 0.1 go to 0.1, values above 3 go
to 3, and everything in between goes to 5. All per-trait arms after the
first three are unreachable. -/
theorem clampGene_image (gene : ℚ) :
    clampGene gene = 1/10 ∨ clampGene gene = 3 ∨ clampGene gene = 5 := by
  by_cases h1 : gene < 1/10
  · left
    simp only [clampGene, if_pos h1]
  · by_cases h2 : gene > 3
    · right; left
      simp only [clampGene, if_neg h1, if_pos h2]
    · right; right
      have h3 : gene < 5 := by push_neg at h2; linarith
      simp only [clampGene, if_neg h1, if_neg h2, if_pos h3]

/-- C1: gene inheritance is claimed to keep every trait inside its documented
per-trait range for all parent values, mutation rates and random draws. The
clamp chain in mutate_gene is first-match-wins over a single value, so the
per-trait bounds are never applied: inheriting aggression (documented range
0 to 1) from two parents both at 1/2, with mutation rate 0, blend factor 1/2
and uniform draw 1, yields 5, and inheriting sense_range (documented range 5
to 150) from two parents both at 50 yields 3. -/
theorem mutate_gene_escapes_documented_ranges :
    mutateGene (1/2) (1/2) 0 (1/2) 1 0 = 5 ∧
    ¬ (mutateGene (1/2) (1/2) 0 (1/2) 1 0 ≤ 1) ∧
    mutateGene 50 50 0 (1/2) 1 0 = 3 ∧
    ¬ (5 ≤ mutateGene 50 50 0 (1/2) 1 0) := by
  norm_num [mutateGene, preClampGene, blendGene, clampGene]

/-- C9: with mutation rate zero (and a nonnegative uniform draw, as produced
by the generator on [0,1)) the pre-clamp value of mutate_gene is exactly the
parent blend, which is strictly between distinct parents for any blend
factor in [0.3, 0.7), and equal to them when the parents coincide. -/
theorem blend_strictly_between (A B blend mutU noise : ℚ)
    (hb1 : 3/10 ≤ blend) (hb2 : blend < 7/10) (hu : 0 ≤ mutU) :
    preClampGene A B 0 blend mutU noise = blendGene A B blend ∧
    (A = B → blendGene A B blend = A) ∧
    (A ≠ B →
      min A B < blendGene A B blend ∧ blendGene A B blend < max A B) := by
  refine ⟨?_, ?_, ?_⟩
  · simp only [preClampGene]
    rw [if_neg (not_lt.mpr hu)]
  · intro h
    subst h
    simp only [blendGene]
    ring
  · intro hne
    rcases lt_or_gt_of_ne hne with h | h
    · rw [min_eq_left h.le, max_eq_right h.le]
      constructor
      · simp only [blendGene]; nlinarith
      · simp only [blendGene]; nlinarith
    · rw [min_eq_right h.le, max_eq_left h.le]
      constructor
      · simp only [blendGene]; nlinarith
      · simp only [blendGene]; nlinarith

/-- Witness for C9 at parents 0 and 1, blend factor 1/2, uniform draw 0. -/
theorem blend_strictly_between_witness :
    ((3:ℚ)/10 ≤ 1/2 ∧ (1:ℚ)/2 < 7/10 ∧ (0:ℚ) ≤ 0) ∧
    (preClampGene 0 1 0 (1/2) 0 7 = blendGene 0 1 (1/2) ∧
      ((0:ℚ) = 1 → blendGene 0 1 (1/2) = 0) ∧
      ((0:ℚ) ≠ 1 →
        min (0:ℚ) 1 < blendGene 0 1 (1/2) ∧ blendGene 0 1 (1/2) < max (0:ℚ) 1)) :=
  ⟨by norm_num,
   blend_strictly_between 0 1 (1/2) 0 7 (by norm_num) (by norm_num) (by norm_num)⟩

/-- A regenerating energy source, from src/resource.rs (struct Resource). -/
structure Resource where
  x : ℚ
  y : ℚ
  energy : ℚ
  maxEnergy : ℚ
  size : ℚ
  growthRate : ℚ
  regenerationRate : ℚ
  age : ℚ
  targetEnergy : ℚ
  isSpawning : Bool
  spawnFade : ℚ
  isDepleting : Bool
  depleteFade : ℚ
  deriving Repr, DecidableEq

/-- Resource::new (src/resource.rs lines 22-42) with the random draws
(initial target energy, max energy, growth and regeneration rates) passed
explicitly. -/
def newResource (x y initialEnergy maxEnergy growthRate regenRate : ℚ) : Resource :=
  { x := x, y := y, energy := 0, maxEnergy := maxEnergy, size := 3
    growthRate := growthRate, regenerationRate := regenRate, age := 0
    targetEnergy := initialEnergy, isSpawning := true, spawnFade := 0
    isDepleting := false, depleteFade := 0 }

/-- Resource::update (src/resource.rs lines 44-99): fade handling, smooth
growth toward the target and the maximum, lagged size smoothing, and the
low-energy regeneration trickle. -/
def resourceUpdate (dt : ℚ) (r : Resource) : Resource :=
  let r := { r with age := r.age + dt }
  let r :=
    if r.isSpawning then
      let sf := r.spawnFade + dt * 2
      if sf ≥ 1 then { r with spawnFade := 1, isSpawning := false }
      else { r with spawnFade := sf }
    else r
  let r :=
    if r.isDepleting then
      let df := r.depleteFade + dt * 3
      if df ≥ 1 then { r with depleteFade := 1 }
      else { r with depleteFade := df }
    else r
  let r :=
    if !r.isSpawning && !r.isDepleting then
      let energyDiff : ℚ := r.targetEnergy - r.energy
      let r : Resource :=
        if |energyDiff| > 1/10 then
          let growthDirection : ℚ := if energyDiff > 0 then 1 else -1
          let growthAmount := r.growthRate * dt * growthDirection
          if |energyDiff| < |growthAmount| then { r with energy := r.targetEnergy }
          else { r with energy := r.energy + growthAmount }
        else r
      if r.energy < r.maxEnergy then
        let e := r.energy + r.growthRate * dt * (1/2)
        if e > r.maxEnergy then { r with energy := r.maxEnergy }
        else { r with energy := e }
      else r
    else r
  let targetSize : ℚ := 3 + r.energy / r.maxEnergy * 5
  let sizeDiff : ℚ := targetSize - r.size
  let r := if |sizeDiff| > 1/10 then { r with size := r.size + sizeDiff * dt * 2 } else r
  if r.energy < 10 && !r.isDepleting then
    { r with energy := r.energy + r.regenerationRate * dt }
  else r

/-- Resource::is_available (src/resource.rs lines 115-117). -/
def Resource.isAvailable (r : Resource) : Bool :=
  decide (r.energy > 5) && !r.isDepleting && decide (r.spawnFade > 1/2)

/-- The behavior states of an agent, from src/agent.rs (enum AgentState). -/
inductive AgentState where
  | seeking
  | hunting
  | feeding
  | reproducing
  | fighting
  | fleeing
  deriving Repr, DecidableEq

/-- Death reasons recorded on dying agents, from src/agent.rs (enum DeathReason). -/
inductive DeathReason where
  | starvation
  | oldAge
  | killedByPredator
  | combat
  | naturalCauses
  deriving Repr, DecidableEq

/-- A mobile creature, from src/agent.rs (struct Agent). -/
structure Agent where
  x : ℚ
  y : ℚ
  dx : ℚ
  dy : ℚ
  energy : ℚ
  maxEnergy : ℚ
  age : ℚ
  genes : Genes
  targetX : Option ℚ
  targetY : Option ℚ
  state : AgentState
  lastReproduction : ℚ
  kills : ℕ
  generation : ℕ
  deathFade : ℚ
  deathReason : Option DeathReason
  isDying : Bool
  spawnFade : ℚ
  spawnPosition : Option (ℚ × ℚ)
  deriving Repr, DecidableEq

/-- Agent::new (src/agent.rs lines 49-74) with the random heading draw passed
as its cosine and sine. -/
def Agent.new (x y : ℚ) (genes : Genes) (generation : ℕ) (angleC angleS : ℚ) : Agent :=
  { x := x, y := y, dx := angleC * genes.speed, dy := angleS * genes.speed
    energy := 80, maxEnergy := 100, age := 0, genes := genes
    targetX := none, targetY := none, state := AgentState.seeking
    lastReproduction := 0, kills := 0, generation := generation
    deathFade := 0, deathReason := none, isDying := false
    spawnFade := 0, spawnPosition := some (x, y) }

/-- Agent::can_reproduce (src/agent.rs lines 528-531). -/
def Agent.canReproduce (a : Agent) : Bool :=
  decide (a.energy > 10) && decide (a.age > 2) && decide (a.age - a.lastReproduction > 1)

/-- Agent::is_alive (src/agent.rs lines 544-546). -/
def Agent.isAlive (a : Agent) : Bool :=
  decide (a.energy > 0) && decide (a.age < 200)

/-- Agent::is_predator (src/agent.rs lines 548-550). -/
def Agent.isPredatorA (a : Agent) : Bool :=
  decide (a.genes.isPredator > 1/2)

/-- Agent::is_prey (src/agent.rs lines 552-554). -/
def Agent.isPreyA (a : Agent) : Bool :=
  !a.isPredatorA

/-- The Rust saturating f64-to-u64 cast: negative values saturate to 0,
values beyond the u64 range saturate to the maximum, and in between the
fractional part is truncated. -/
def ratCastU64 (q : ℚ) : ℕ :=
  if q < 0 then 0 else min (Int.toNat ⌊q⌋) (2 ^ 64 - 1)

/-- Agent::id (src/agent.rs lines 539-542): a position/generation hash by
bitwise xor. -/
def Agent.idNum (a : Agent) : ℕ :=
  (ratCastU64 (a.x * 1000) ^^^ ratCastU64 (a.y * 1000)) ^^^ a.generation

/-- The squared distance underlying Agent::distance_to and
Resource::distance_to; the source takes its square root before comparing or
dividing, which this embedding does through the rsqrt oracle. -/
def distSq (x1 y1 x2 y2 : ℚ) : ℚ :=
  (x1 - x2) ^ 2 + (y1 - y2) ^ 2

/-- Whether a new candidate score beats the best so far; the source starts
from f64::NEG_INFINITY, modelled by the none case. -/
def beatsBest (best : Option (ℚ × ℚ × ℚ)) (score : ℚ) : Bool :=
  match best with
  | none => true
  | some (s, _, _) => decide (score > s)

/-- Agent::random_movement (src/agent.rs lines 521-526) with the random
heading draw passed as its cosine and sine. -/
def randomMovement (a : Agent) (angleC angleS : ℚ) : Agent :=
  { a with dx := angleC * a.genes.speed, dy := angleS * a.genes.speed }

/-- Agent::seek_targets (src/agent.rs lines 209-320): predator prey-scoring
scan, prey flee-from-predator scan with early return, resource scoring scan,
predator rival scan with advantage scoring and flee early return, then
either lock the best target and hunt, or take a random heading. The flee
early returns discard any previously accumulated best candidate, exactly as
the source returns out of the loop. -/
def seekTargets (rsqrt : ℚ → ℚ) (a : Agent) (resources : List Resource)
    (agents : List Agent) (angleC angleS : ℚ) : Agent :=
  let best1 : Option (ℚ × ℚ × ℚ) :=
    if a.isPredatorA then
      agents.foldl (fun best b =>
        let d := rsqrt (distSq a.x a.y b.x b.y)
        if b.idNum ≠ a.idNum ∧ b.isPreyA ∧
            d ≤ a.genes.senseRange * a.genes.territorySize / 100 then
          let energyScore := b.energy / 100
          let distancePenalty := d / a.genes.senseRange
          let score := energyScore * (1 - distancePenalty) * (1 + a.genes.stealth) *
            (1 + a.genes.intelligence)
          if beatsBest best score then some (score, b.x, b.y) else best
        else best) none
    else none
  let preyThreat : Option Agent :=
    if a.isPreyA then
      agents.find? (fun b =>
        b.idNum ≠ a.idNum && b.isPredatorA &&
          decide (rsqrt (distSq a.x a.y b.x b.y) ≤ a.genes.senseRange))
    else none
  match preyThreat with
  | some b =>
    { a with state := AgentState.fleeing
             targetX := some (a.x - (b.x - a.x) * 2)
             targetY := some (a.y - (b.y - a.y) * 2) }
  | none =>
    let best2 : Option (ℚ × ℚ × ℚ) :=
      resources.foldl (fun best r =>
        if r.isAvailable then
          let d := rsqrt (distSq r.x r.y a.x a.y)
          if d ≤ a.genes.senseRange then
            let score := r.energy / (d + 1)
            if beatsBest best score then some (score, r.x, r.y) else best
          else best
        else best) best1
    let rivalThreat : Option Agent :=
      if a.isPredatorA then
        agents.find? (fun b =>
          b.idNum ≠ a.idNum && b.isPredatorA &&
            decide (rsqrt (distSq a.x a.y b.x b.y) ≤ a.genes.senseRange * (1/2)) &&
            decide (b.genes.size / a.genes.size > 6/5) &&
            decide (a.genes.attackPower / b.genes.attackPower < 4/5))
      else none
    match rivalThreat with
    | some b =>
      { a with state := AgentState.fleeing
               targetX := some (a.x - (b.x - a.x) * (3/2))
               targetY := some (a.y - (b.y - a.y) * (3/2)) }
    | none =>
      let best3 : Option (ℚ × ℚ × ℚ) :=
        if a.isPredatorA then
          agents.foldl (fun best b =>
            let d := rsqrt (distSq a.x a.y b.x b.y)
            if b.idNum ≠ a.idNum ∧ b.isPredatorA ∧ d ≤ a.genes.senseRange * (1/2) then
              let sizeQuot := b.genes.size / a.genes.size
              let energyQuot := b.energy / a.energy
              let attackQuot := a.genes.attackPower / b.genes.attackPower
              if sizeQuot < 4/5 ∧ energyQuot > 7/10 ∧ attackQuot > 6/5 ∧
                  a.genes.aggression > 3/5 then
                let score := b.energy / (d + 1) * a.genes.aggression * attackQuot
                if beatsBest best score then some (score, b.x, b.y) else best
              else best
            else best) best2
        else best2
      match best3 with
      | some (_, tx, ty) =>
        { a with targetX := some tx, targetY := some ty, state := AgentState.hunting }
      | none => randomMovement a angleC angleS

/-- Agent::hunt_target (src/agent.rs lines 322-346). -/
def huntTarget (rsqrt : ℚ → ℚ) (a : Agent) : Agent :=
  match a.targetX, a.targetY with
  | some tx, some ty =>
    let dx := tx - a.x
    let dy := ty - a.y
    let distance := rsqrt (dx ^ 2 + dy ^ 2)
    if distance < 5 then { a with state := AgentState.feeding }
    else
      let baseSpeed := a.genes.speed
      let huntingSpeed : ℚ :=
        if a.isPredatorA then baseSpeed * a.genes.huntingSpeed * 2 else baseSpeed * 2
      { a with dx := dx / distance * huntingSpeed, dy := dy / distance * huntingSpeed }
  | _, _ => { a with state := AgentState.seeking }

/-- Agent::feed_on_resource (src/agent.rs lines 348-378): when a target is
set and some resource lies within the interaction radius, gain a flat energy
amount scaled by efficiency, clamp to max_energy, and maybe switch to
reproducing; otherwise fall back to seeking. Returns the consumed resource
index. -/
def feedOnResource (rsqrt : ℚ → ℚ) (a : Agent) (resources : List Resource) :
    Agent × Option ℕ :=
  match a.targetX, a.targetY with
  | some _, some _ =>
    match resources.enum.find? (fun p =>
        decide (rsqrt (distSq p.2.x p.2.y a.x a.y) < 5)) with
    | some (i, _) =>
      let e := a.energy + 50 * a.genes.energyEfficiency
      let e := if e > a.maxEnergy then a.maxEnergy else e
      let st := if e > 15 ∧ a.age > 2 then AgentState.reproducing else AgentState.seeking
      ({ a with energy := e, state := st, targetX := none, targetY := none }, some i)
    | none =>
      ({ a with state := AgentState.seeking, targetX := none, targetY := none }, none)
  | _, _ =>
    ({ a with state := AgentState.seeking, targetX := none, targetY := none }, none)

/-- Agent::fight_agent (src/agent.rs lines 380-456): find the first opponent
within the interaction radius, resolve combat from attack, defense, size,
energy, intelligence and stamina; the winner gains a fraction of the loser
energy (more for predators on prey, plus a predator bonus) uncapped, the
loser takes damage and is marked dying when energy drops to zero or below.
The trailing lines of the source unconditionally reset state to Seeking and
clear the target, overwriting the states set inside the branches. -/
def fightAgent (rsqrt : ℚ → ℚ) (a : Agent) (agents : List Agent) : Agent :=
  let a' : Agent :=
    match a.targetX, a.targetY with
    | some _, some _ =>
      match agents.find? (fun (b : Agent) =>
          decide (rsqrt (distSq b.x b.y a.x a.y) < 5)) with
      | some b =>
        let myAttack := a.genes.attackPower * a.genes.size * a.energy * (1/100)
        let myDefense := a.genes.defense * a.genes.size
        let theirAttack := b.genes.attackPower * b.genes.size * b.energy * (1/100)
        let theirDefense := b.genes.defense * b.genes.size
        let myEffectivePower := myAttack / (theirDefense + 1)
        let theirEffectivePower := theirAttack / (myDefense + 1)
        let myTotalPower :=
          myEffectivePower * (1 + a.genes.intelligence * (1/2) + a.genes.stamina * (3/10))
        let theirTotalPower :=
          theirEffectivePower * (1 + b.genes.intelligence * (1/2) + b.genes.stamina * (3/10))
        if myTotalPower > theirTotalPower then
          let energyGain : ℚ :=
            if a.isPredatorA ∧ b.isPreyA then b.energy * (6/5) else b.energy * (3/5)
          let a1 : Agent := { a with energy := a.energy + energyGain, kills := a.kills + 1 }
          let a1 : Agent :=
            if a1.isPredatorA then
              { a1 with energy := a1.energy + 20 * a1.genes.attackPower }
            else a1
          if a1.energy > (15 : ℚ) ∧ a1.age > 2 then { a1 with state := AgentState.reproducing }
          else a1
        else
          let damage : ℚ := theirTotalPower * (1/10)
          let a1 : Agent := { a with energy := a.energy - damage }
          let a1 : Agent :=
            if a1.energy ≤ (0 : ℚ) then
              { a1 with isDying := true, deathReason := some DeathReason.combat,
                        deathFade := 0 }
            else a1
          { a1 with state := AgentState.fleeing }
      | none => a
    | _, _ => a
  { a' with state := AgentState.seeking, targetX := none, targetY := none }

/-- Agent::flee_from_danger (src/agent.rs lines 458-474). -/
def fleeFromDanger (rsqrt : ℚ → ℚ) (a : Agent) : Agent :=
  match a.targetX, a.targetY with
  | some tx, some ty =>
    let dx := tx - a.x
    let dy := ty - a.y
    let distance := rsqrt (dx ^ 2 + dy ^ 2)
    if distance > a.genes.senseRange then
      { a with state := AgentState.seeking, targetX := none, targetY := none }
    else
      let speed := a.genes.speed * 3
      { a with dx := dx / distance * speed, dy := dy / distance * speed }
  | _, _ => a

/-- Agent::reproduce (src/agent.rs lines 476-481). -/
def reproduceAct (a : Agent) : Agent :=
  { a with energy := a.energy * (7/10), lastReproduction := a.age,
           state := AgentState.seeking }

/-- The random draws used by Agent::move_agent: the uniform draw deciding
whether to perturb the velocity, and the cosine and sine of the perturbation
angle. -/
structure PerturbDraw where
  u : ℚ
  c : ℚ
  s : ℚ
  deriving Repr, DecidableEq

/-- The velocity after the occasional random perturbation in
Agent::move_agent (src/agent.rs lines 505-511). -/
def perturbVel (a : Agent) (pd : PerturbDraw) : ℚ × ℚ :=
  if pd.u < 1/100 then (a.dx + pd.c * (1/10), a.dy + pd.s * (1/10))
  else (a.dx, a.dy)

/-- Agent::move_agent (src/agent.rs lines 483-519): apply velocity, wrap at
the world edges, occasionally perturb the velocity, then normalize the
velocity to unit length when its magnitude is positive. -/
def moveAgent (rsqrt : ℚ → ℚ) (a : Agent) (dt canvasWidth canvasHeight : ℚ)
    (pd : PerturbDraw) : Agent :=
  let x := a.x + a.dx * dt
  let y := a.y + a.dy * dt
  let x := if x < 0 then canvasWidth else x
  let x := if x > canvasWidth then 0 else x
  let y := if y < 0 then canvasHeight else y
  let y := if y > canvasHeight then 0 else y
  let v := perturbVel a pd
  let length := rsqrt (v.1 ^ 2 + v.2 ^ 2)
  let v := if length > 0 then (v.1 / length, v.2 / length) else v
  { a with x := x, y := y, dx := v.1, dy := v.2 }

/-- The random draws consumed by one Agent::update call: the heading draw of
a possible random_movement inside seek_targets, and the perturbation draw of
move_agent. -/
structure AgentDraws where
  seekC : ℚ
  seekS : ℚ
  perturb : PerturbDraw
  deriving Repr, DecidableEq

/-- The age advance and spawn fade-in at the top of Agent::update
(src/agent.rs lines 84-92). -/
def ageFadeStep (a : Agent) (dt : ℚ) : Agent :=
  let a : Agent := { a with age := a.age + dt }
  if a.spawnFade < 1 then
    let sf := a.spawnFade + dt * 3
    if sf ≥ 1 then { a with spawnFade := 1 } else { a with spawnFade := sf }
  else a

/-- The metabolic energy debit of Agent::update (src/agent.rs lines
104-109): size- and speed-dependent base cost, scaled by metabolism and a
positional environmental factor, divided by energy efficiency. -/
def energyDebitStep (a : Agent) (dt canvasWidth canvasHeight : ℚ) : Agent :=
  let baseEnergyCost : ℚ := (a.genes.size * (5/100) + a.genes.speed * (2/100)) * dt
  let metabolismFactor := a.genes.metabolism
  let environmentalFactor : ℚ := 1 + (a.x / canvasWidth + a.y / canvasHeight) * (1/1000)
  let totalEnergyCost := baseEnergyCost * metabolismFactor * environmentalFactor
  { a with energy := a.energy - totalEnergyCost / a.genes.energyEfficiency }

/-- The state-action dispatch of Agent::update (src/agent.rs lines 129-139). -/
def actionStep (rsqrt : ℚ → ℚ) (a : Agent) (resources : List Resource)
    (agents : List Agent) (d : AgentDraws) : Agent × Option ℕ :=
  match a.state with
  | AgentState.seeking => (seekTargets rsqrt a resources agents d.seekC d.seekS, none)
  | AgentState.hunting => (huntTarget rsqrt a, none)
  | AgentState.feeding => feedOnResource rsqrt a resources
  | AgentState.reproducing => (reproduceAct a, none)
  | AgentState.fighting => (fightAgent rsqrt a agents, none)
  | AgentState.fleeing => (fleeFromDanger rsqrt a, none)

/-- Agent::update (src/agent.rs lines 76-156): advance age and spawn fade;
dying agents only advance their death fade; live agents pay the metabolic
energy cost and are marked dying on exhaustion or old age, otherwise run the
behavior decision, the state action, the movement step and the reproduction
recheck. update_behavior_state (lines 158-188) and
perform_learning_calculations (lines 190-207) only compute local values -
their gene feedback is commented out in the source - so they leave the agent
unchanged and are not represented. Returns the updated agent and the index
of a consumed resource, if any. -/
def agentUpdate (rsqrt : ℚ → ℚ) (a : Agent) (dt : ℚ) (resources : List Resource)
    (agents : List Agent) (canvasWidth canvasHeight : ℚ) (d : AgentDraws) :
    Agent × Option ℕ :=
  let a := ageFadeStep a dt
  if a.isDying then
    ({ a with deathFade := a.deathFade + dt * 2 }, none)
  else
    let a := energyDebitStep a dt canvasWidth canvasHeight
    if a.energy ≤ 0 then
      ({ a with isDying := true, deathReason := some DeathReason.starvation,
                deathFade := 0 }, none)
    else if a.age > 200 then
      ({ a with isDying := true, deathReason := some DeathReason.oldAge,
                deathFade := 0 }, none)
    else
      let step := actionStep rsqrt a resources agents d
      let a := moveAgent rsqrt step.1 dt canvasWidth canvasHeight d.perturb
      let a : Agent := if a.canReproduce then { a with state := AgentState.reproducing } else a
      (a, step.2)

/-- The random draws consumed by one Agent::create_offspring call: the 18
gene draws of inherit_from, the spawn position offsets, and the heading draw
of Agent::new. -/
structure OffspringDraws where
  genes : GeneDraws
  offsetX : ℚ
  offsetY : ℚ
  angleC : ℚ
  angleS : ℚ
  deriving Repr, DecidableEq

/-- Agent::create_offspring (src/agent.rs lines 556-575): blend and mutate
the parent genomes with the initiating parent's mutation rate, spawn near
the initiating parent, and pass self.generation + 1 to Agent::new. -/
def createOffspring (a other : Agent) (d : OffspringDraws) : Agent :=
  let newGenes := inheritFrom a.genes other.genes a.genes.mutationRate d.genes
  let spawnX := a.x + d.offsetX
  let spawnY := a.y + d.offsetY
  let offspring := Agent.new spawnX spawnY newGenes (a.generation + 1) d.angleC d.angleS
  { offspring with spawnPosition := some (spawnX, spawnY), spawnFade := 0 }

/-- Simulation::get_grid_position (src/simulation.rs lines 83-90, identical
in src/simulation_core.rs lines 308-315): floor-divide by the cell size -
the Rust f64-to-usize cast saturates negatives to 0, matching Int.toNat -
then clamp into the grid. -/
def gridPos (cellSize : ℚ) (gridWidth gridHeight : ℕ) (x y : ℚ) : ℕ × ℕ :=
  (min (Int.toNat ⌊x / cellSize⌋) (gridWidth - 1),
   min (Int.toNat ⌊y / cellSize⌋) (gridHeight - 1))

/-- The contents of one cell of the spatial grid built by
update_spatial_grid (src/simulation.rs lines 110-123): the indices, in
insertion order, of the agents whose position falls in the cell. -/
def gridCellContents (cellSize : ℚ) (gridWidth gridHeight : ℕ)
    (positions : List (ℚ × ℚ)) (c : ℕ × ℕ) : List ℕ :=
  (List.range positions.length).filter (fun i =>
    match positions.get? i with
    | some p => decide (gridPos cellSize gridWidth gridHeight p.1 p.2 = c)
    | none => false)

/-- An inclusive integer range, modelling the Rust loop lo..=hi. -/
def intRange (lo hi : ℤ) : List ℤ :=
  (List.range (hi - lo + 1).toNat).map (fun (k : ℕ) => lo + (k : ℤ))

/-- Simulation::get_nearby_agents (src/simulation.rs lines 92-108): scan all
cells within ceil(radius / cell_size) cells of the query cell, skipping
coordinates outside the grid (the Rust negative-to-usize cast wraps to a
huge value that fails the < grid_width test, which the sign check models),
and concatenate their index lists. -/
def getNearbyAgents (cellSize : ℚ) (gridWidth gridHeight : ℕ)
    (positions : List (ℚ × ℚ)) (x y radius : ℚ) : List ℕ :=
  let c := gridPos cellSize gridWidth gridHeight x y
  let gridRadius : ℤ := (Int.toNat ⌈radius / cellSize⌉ : ℤ)
  (intRange (-gridRadius) gridRadius).flatMap (fun dx =>
    (intRange (-gridRadius) gridRadius).flatMap (fun dy =>
      let gx := (c.1 : ℤ) + dx
      let gy := (c.2 : ℤ) + dy
      if 0 ≤ gx ∧ gx < gridWidth ∧ 0 ≤ gy ∧ gy < gridHeight then
        gridCellContents cellSize gridWidth gridHeight positions (gx.toNat, gy.toNat)
      else []))

/-- LegacySimulationEngine::get_nearby_agents (src/simulation_core.rs lines
317-346): scan only the query cell and its eight neighbours regardless of
the radius, and keep the indices whose exact distance is within the radius. -/
def getNearbyAgentsLegacy (rsqrt : ℚ → ℚ) (cellSize : ℚ) (gridWidth gridHeight : ℕ)
    (positions : List (ℚ × ℚ)) (x y radius : ℚ) : List ℕ :=
  let c := gridPos cellSize gridWidth gridHeight x y
  (intRange (-1) 1).flatMap (fun dx =>
    (intRange (-1) 1).flatMap (fun dy =>
      let gx := (c.1 : ℤ) + dx
      let gy := (c.2 : ℤ) + dy
      if 0 ≤ gx ∧ gx < gridWidth ∧ 0 ≤ gy ∧ gy < gridHeight then
        (gridCellContents cellSize gridWidth gridHeight positions
            (gx.toNat, gy.toNat)).filter (fun i =>
          match positions.get? i with
          | some p => decide (rsqrt (distSq p.1 p.2 x y) ≤ radius)
          | none => false)
      else []))

/-- The boundary-wrapped movement step inlined in EcsWorld::update_agents
(src/ecs.rs lines 252-277): apply velocity, wrap at the canvas edges, then
normalize the velocity to unit length when its magnitude is positive.
Returns the new position and velocity. -/
def ecsMoveStep (rsqrt : ℚ → ℚ) (px py vdx vdy dt canvasWidth canvasHeight : ℚ) :
    (ℚ × ℚ) × (ℚ × ℚ) :=
  let x := px + vdx * dt
  let y := py + vdy * dt
  let x := if x < 0 then canvasWidth else x
  let x := if x > canvasWidth then 0 else x
  let y := if y < 0 then canvasHeight else y
  let y := if y > canvasHeight then 0 else y
  let length := rsqrt (vdx ^ 2 + vdy ^ 2)
  let v : ℚ × ℚ := if length > 0 then (vdx / length, vdy / length) else (vdx, vdy)
  ((x, y), v)

/-- The random draws consumed by one reproduction attempt of an agent in
Simulation::update: the mate pick among the potential mates, the coin flip,
and the draws of the offspring created on success. -/
structure ReproDraw where
  mateIdx : ℕ
  coinU : ℚ
  offspring : OffspringDraws

/-- The mate filter of the reproduction passes (src/simulation.rs lines
234-239 and 273-278): a different id, within distance 20, energetic enough,
and itself able to reproduce. -/
def mateFilter (rsqrt : ℚ → ℚ) (a other : Agent) : Bool :=
  decide (other.idNum ≠ a.idNum) &&
    decide (rsqrt (distSq a.x a.y other.x other.y) < 20) &&
    decide (other.energy > 50) && other.canReproduce

/-- SliceRandom::choose on the potential-mate list, with the uniform pick
passed as an index: none exactly when the list is empty. -/
def chooseMate (mates : List Agent) (idx : ℕ) : Option Agent :=
  if mates.isEmpty then none else mates.get? (idx % mates.length)

/-- The parallel reproduction path of Simulation::update (src/simulation.rs
lines 223-263): every agent independently checks eligibility, picks a mate,
and checks the start-of-tick population count against max_agents - with no
counter for offspring already produced in the same pass - before flipping
the coin; all offspring are then appended. -/
def parallelReproductionPass (rsqrt : ℚ → ℚ) (agents : List Agent) (maxAgents : ℕ)
    (draws : ℕ → ReproDraw) : List Agent :=
  let newAgents := agents.enum.filterMap (fun (p : ℕ × Agent) =>
    let i := p.1
    let a := p.2
    if a.canReproduce then
      match chooseMate (agents.filter (mateFilter rsqrt a)) (draws i).mateIdx with
      | some mate =>
        if agents.length < maxAgents then
          if (draws i).coinU < 1/2 then some (createOffspring a mate (draws i).offspring)
          else none
        else none
      | none => none
    else none)
  agents ++ newAgents

/-- The sequential reproduction path of Simulation::update
(src/simulation.rs lines 264-293): identical to the parallel path except
that the cap check counts the offspring already accumulated in this pass. -/
def sequentialReproductionPass (rsqrt : ℚ → ℚ) (agents : List Agent) (maxAgents : ℕ)
    (draws : ℕ → ReproDraw) : List Agent :=
  let newAgents := agents.enum.foldl (fun (acc : List Agent) (p : ℕ × Agent) =>
    let i := p.1
    let a := p.2
    if a.canReproduce then
      match chooseMate (agents.filter (mateFilter rsqrt a)) (draws i).mateIdx with
      | some mate =>
        if agents.length + acc.length < maxAgents then
          if (draws i).coinU < 1/2 then acc ++ [createOffspring a mate (draws i).offspring]
          else acc
        else acc
      | none => acc
    else acc) []
  agents ++ newAgents

/-- The population-pressure gates of Simulation::update (src/simulation.rs
lines 210-220): true when either check fires and the function returns early. -/
def reproductionGateBlocks (n maxAgents : ℕ) : Bool :=
  decide (Int.toNat ⌊(maxAgents : ℚ) * (8/10)⌋ ≤ n) ||
    decide ((n : ℚ) / (maxAgents : ℚ) > 6/10)

/-- The parallel reproduction path together with its population-pressure
gates (src/simulation.rs lines 210-263). -/
def reproductionPhaseParallel (rsqrt : ℚ → ℚ) (agents : List Agent) (maxAgents : ℕ)
    (draws : ℕ → ReproDraw) : List Agent :=
  if reproductionGateBlocks agents.length maxAgents then agents
  else parallelReproductionPass rsqrt agents maxAgents draws

/-- The mutable state of struct Simulation (src/simulation.rs lines 28-41).
The spatial grid is not stored: it is rebuilt from the agent positions at
the start of every tick and is queried only by perform_complex_calculations,
so this embedding recomputes it from positions where needed. -/
structure Simulation where
  agents : List Agent
  resources : List Resource
  width : ℚ
  height : ℚ
  time : ℚ
  resourceSpawnTimer : ℚ
  maxAgents : ℕ
  maxResources : ℕ

/-- The depletion marking applied to a consumed resource index
(src/simulation.rs lines 201-206): out-of-range indices are ignored. -/
def markDepleting (resources : List Resource) (idx : ℕ) : List Resource :=
  resources.enum.map (fun (p : ℕ × Resource) =>
    if p.1 = idx then { p.2 with isDepleting := true, depleteFade := 0 } else p.2)

/-- The random draws consumed by one Simulation::update tick on the
sequential path: per-agent update draws, per-agent reproduction draws, and
the draws of a possibly spawned resource. -/
structure SimDraws where
  agent : ℕ → AgentDraws
  repro : ℕ → ReproDraw
  spawnX : ℚ
  spawnY : ℚ
  spawnInitialEnergy : ℚ
  spawnMaxEnergy : ℚ
  spawnGrowthRate : ℚ
  spawnRegenRate : ℚ

/-- Simulation::update on the sequential (rayon-unavailable) path
(src/simulation.rs lines 148-304): advance time, update resources, maybe
spawn a resource, update every agent against the resource list (the agent
slice passed to Agent::update is empty in the source) marking consumed
resources as they occur, then either return early at the population-pressure
gates - skipping the cleanup - or run the sequential reproduction pass,
remove dead agents and fully depleted resources, and finish with
perform_complex_calculations, abstracted as the complexCalc parameter since
it only reweighs velocities and energies through transcendental functions. -/
def simUpdateSequential (rsqrt : ℚ → ℚ) (s : Simulation) (d : SimDraws)
    (complexCalc : Simulation → Simulation) : Simulation :=
  let dt : ℚ := 1/60
  let time := s.time + dt
  let resources := s.resources.map (resourceUpdate dt)
  let timer := s.resourceSpawnTimer + dt
  let spawned : List Resource × ℚ :=
    if timer > 1/2 ∧ resources.length < s.maxResources then
      (resources ++ [newResource d.spawnX d.spawnY d.spawnInitialEnergy d.spawnMaxEnergy
        d.spawnGrowthRate d.spawnRegenRate], 0)
    else (resources, timer)
  let stepped : List Agent × List Resource :=
    s.agents.enum.foldl (fun (acc : List Agent × List Resource) (p : ℕ × Agent) =>
      let r := agentUpdate rsqrt p.2 dt acc.2 [] s.width s.height (d.agent p.1)
      let res' := match r.2 with
        | some idx => markDepleting acc.2 idx
        | none => acc.2
      (acc.1 ++ [r.1], res')) ([], spawned.1)
  let s' : Simulation := { s with agents := stepped.1, resources := stepped.2,
                                  time := time, resourceSpawnTimer := spawned.2 }
  if reproductionGateBlocks stepped.1.length s.maxAgents then s'
  else
    let agents := sequentialReproductionPass rsqrt stepped.1 s.maxAgents d.repro
    let agents := agents.filter Agent.isAlive
    let resources := stepped.2.filter (fun r => !r.isDepleting || decide (r.depleteFade < 1))
    complexCalc { s' with agents := agents, resources := resources }

/-! Concrete fixtures used by counterexamples and witnesses. -/

/-- A square-root oracle returning 0, valid at the only point (squared
distance 0) where the evaluations using it consult it. -/
def rsqrtZero : ℚ → ℚ := fun _ => 0

/-- A gene draw with blend factor 1/2 and a uniform draw of 1, which never
triggers mutation. -/
def testGeneDraw : GeneDraw := ⟨1/2, 1, 0⟩

/-- The 18 per-trait draws, all equal to testGeneDraw. -/
def testGeneDraws : GeneDraws :=
  ⟨testGeneDraw, testGeneDraw, testGeneDraw, testGeneDraw, testGeneDraw, testGeneDraw,
   testGeneDraw, testGeneDraw, testGeneDraw, testGeneDraw, testGeneDraw, testGeneDraw,
   testGeneDraw, testGeneDraw, testGeneDraw, testGeneDraw, testGeneDraw, testGeneDraw⟩

/-- Offspring draws with zero offsets and heading (1, 0). -/
def testOffspringDraws : OffspringDraws := ⟨testGeneDraws, 0, 0, 1, 0⟩

/-- A concrete non-predator genome with unit traits. -/
def preyGenes : Genes :=
  { speed := 1, senseRange := 50, size := 1, energyEfficiency := 1
    reproductionThreshold := 80, mutationRate := 0, aggression := 1/2, colorHue := 0
    isPredator := 0, huntingSpeed := 1, attackPower := 1, defense := 1, stealth := 0
    packMentality := 0, territorySize := 100, metabolism := 1, intelligence := 1
    stamina := 1 }

/-- A concrete predator genome: is_predator above the 0.5 threshold and
attack power 2. -/
def predGenes : Genes :=
  { preyGenes with isPredator := 1, attackPower := 2 }

/-- C6 counterexample input: an initiating parent of generation 1. -/
def parentGenOne : Agent := Agent.new 0 0 preyGenes 1 1 0

/-- C6 counterexample input: a mate of generation 5. -/
def parentGenFive : Agent := Agent.new 3 0 preyGenes 5 1 0

/-- C6: the offspring of create_offspring carries self.generation + 1, the
generation of the initiating parent plus one, for every mate and every draw. -/
theorem create_offspring_generation (a other : Agent) (d : OffspringDraws) :
    (createOffspring a other d).generation = a.generation + 1 := rfl

/-- C6 counterexample: with an initiating parent of generation 1 and a mate
of generation 5 the offspring generation is 2, not
max(parent generations) + 1 = 6. -/
theorem create_offspring_generation_not_max :
    (createOffspring parentGenOne parentGenFive testOffspringDraws).generation = 2 ∧
    max parentGenOne.generation parentGenFive.generation + 1 = 6 ∧
    (createOffspring parentGenOne parentGenFive testOffspringDraws).generation ≠
      max parentGenOne.generation parentGenFive.generation + 1 := by
  refine ⟨rfl, rfl, by decide⟩

/-- C7: whenever feed_on_resource actually consumes a resource (it returns a
consumed index), the agent energy right after the event is at most
max_energy, for every agent, resource list and square-root oracle. -/
theorem feed_on_resource_caps_energy (rsqrt : ℚ → ℚ) (a : Agent)
    (resources : List Resource) (i : ℕ)
    (hc : (feedOnResource rsqrt a resources).2 = some i) :
    (feedOnResource rsqrt a resources).1.energy ≤ a.maxEnergy := by
  cases hx : a.targetX with
  | none =>
    simp only [feedOnResource, hx] at hc
    exact Option.noConfusion hc
  | some tx =>
    cases hy : a.targetY with
    | none =>
      simp only [feedOnResource, hx, hy] at hc
      exact Option.noConfusion hc
    | some ty =>
      simp only [feedOnResource, hx, hy] at hc ⊢
      cases hf : resources.enum.find? (fun p =>
          decide (rsqrt (distSq p.2.x p.2.y a.x a.y) < 5)) with
      | none =>
        rw [hf] at hc
        exact Option.noConfusion hc
      | some p =>
        obtain ⟨j, q⟩ := p
        dsimp only
        split_ifs with hgt
        · exact le_refl _
        · exact le_of_not_lt hgt

/-- C7 witness input: an agent with a target set. -/
def feedTestAgent : Agent :=
  { Agent.new 0 0 preyGenes 0 1 0 with targetX := some 0, targetY := some 0 }

/-- C7 witness input: a resource at the agent position. -/
def feedTestResource : Resource := newResource 0 0 30 60 1 1

/-- Witness for C7: the concrete feeding event consumes resource 0 and the
energy 80 + 50 is clamped to max_energy 100. -/
theorem feed_on_resource_caps_energy_witness :
    (feedOnResource rsqrtZero feedTestAgent [feedTestResource]).2 = some 0 ∧
    (feedOnResource rsqrtZero feedTestAgent [feedTestResource]).1.energy ≤
      feedTestAgent.maxEnergy :=
  ⟨by norm_num [feedOnResource, feedTestAgent, feedTestResource, newResource, Agent.new,
      rsqrtZero, distSq, List.enum, List.find?],
   feed_on_resource_caps_energy rsqrtZero feedTestAgent [feedTestResource] 0
     (by norm_num [feedOnResource, feedTestAgent, feedTestResource, newResource, Agent.new,
       rsqrtZero, distSq, List.enum, List.find?])⟩

/-- C8 counterexample input: an agent with base speed 2 and velocity (3, 4). -/
def moveTestAgent : Agent :=
  { Agent.new 10 10 { preyGenes with speed := 2 } 0 1 0 with dx := 3, dy := 4 }

/-- A square-root oracle exact at 25, the only point where the C8
evaluations consult it. -/
def rsqrtTwentyFive : ℚ → ℚ := fun q => if q = 25 then 5 else 0

/-- A perturbation draw whose uniform value 1 never triggers the random
velocity kick. -/
def noPerturb : PerturbDraw := ⟨1, 0, 0⟩

/-- C8 counterexample: move_agent normalizes the velocity (3, 4) of a
speed-2 agent to (3/5, 4/5), a nonzero vector of squared magnitude 1, not of
magnitude equal to the base speed 2; the oracle value 5 is the exact square
root of 25. -/
theorem move_agent_magnitude_not_base_speed :
    (moveAgent rsqrtTwentyFive moveTestAgent (1/60) 100 100 noPerturb).dx ^ 2 +
      (moveAgent rsqrtTwentyFive moveTestAgent (1/60) 100 100 noPerturb).dy ^ 2 = 1 ∧
    ¬ ((moveAgent rsqrtTwentyFive moveTestAgent (1/60) 100 100 noPerturb).dx = 0 ∧
       (moveAgent rsqrtTwentyFive moveTestAgent (1/60) 100 100 noPerturb).dy = 0) ∧
    moveTestAgent.genes.speed ^ 2 = 4 ∧
    (1 : ℚ) ≠ 4 ∧ (5 : ℚ) ^ 2 = 25 := by
  norm_num [moveAgent, perturbVel, moveTestAgent, rsqrtTwentyFive, noPerturb,
    Agent.new, preyGenes]

/-- C8 amended: after move_agent, a nonzero velocity is renormalized to unit
magnitude (not to the base speed): whenever the oracle value at the
post-perturbation velocity is the true positive square root of its squared
magnitude, the resulting velocity has squared magnitude exactly 1. -/
theorem move_agent_normalizes_to_unit (rsqrt : ℚ → ℚ) (a : Agent)
    (dt w h : ℚ) (pd : PerturbDraw)
    (hpos : 0 < rsqrt ((perturbVel a pd).1 ^ 2 + (perturbVel a pd).2 ^ 2))
    (hsq : rsqrt ((perturbVel a pd).1 ^ 2 + (perturbVel a pd).2 ^ 2) ^ 2 =
      (perturbVel a pd).1 ^ 2 + (perturbVel a pd).2 ^ 2) :
    (moveAgent rsqrt a dt w h pd).dx ^ 2 + (moveAgent rsqrt a dt w h pd).dy ^ 2 = 1 := by
  have hne : rsqrt ((perturbVel a pd).1 ^ 2 + (perturbVel a pd).2 ^ 2) ≠ 0 :=
    ne_of_gt hpos
  simp only [moveAgent, if_pos hpos]
  field_simp
  linarith [hsq]

/-- Witness for C8 amended at the concrete agent with velocity (3, 4) and
oracle value 5. -/
theorem move_agent_normalizes_to_unit_witness :
    (0 < rsqrtTwentyFive ((perturbVel moveTestAgent noPerturb).1 ^ 2 +
        (perturbVel moveTestAgent noPerturb).2 ^ 2) ∧
     rsqrtTwentyFive ((perturbVel moveTestAgent noPerturb).1 ^ 2 +
        (perturbVel moveTestAgent noPerturb).2 ^ 2) ^ 2 =
       (perturbVel moveTestAgent noPerturb).1 ^ 2 +
        (perturbVel moveTestAgent noPerturb).2 ^ 2) ∧
    (moveAgent rsqrtTwentyFive moveTestAgent (1/60) 100 100 noPerturb).dx ^ 2 +
      (moveAgent rsqrtTwentyFive moveTestAgent (1/60) 100 100 noPerturb).dy ^ 2 = 1 :=
  ⟨⟨by norm_num [perturbVel, moveTestAgent, rsqrtTwentyFive, noPerturb, Agent.new],
    by norm_num [perturbVel, moveTestAgent, rsqrtTwentyFive, noPerturb, Agent.new]⟩,
   move_agent_normalizes_to_unit rsqrtTwentyFive moveTestAgent (1/60) 100 100 noPerturb
     (by norm_num [perturbVel, moveTestAgent, rsqrtTwentyFive, noPerturb, Agent.new])
     (by norm_num [perturbVel, moveTestAgent, rsqrtTwentyFive, noPerturb, Agent.new])⟩

/-- C10: after the movement step the position lies inside the world bounds
for any prior position and velocity, in both the Agent::move_agent wrapping
and the EcsWorld::update_agents wrapping: an agent leaving one edge is
placed exactly on the opposite edge, never outside. -/
theorem movement_wraps_into_bounds (rsqrt : ℚ → ℚ) (a : Agent) (dt w h : ℚ)
    (pd : PerturbDraw) (hw : 0 ≤ w) (hh : 0 ≤ h) :
    (0 ≤ (moveAgent rsqrt a dt w h pd).x ∧ (moveAgent rsqrt a dt w h pd).x ≤ w ∧
      0 ≤ (moveAgent rsqrt a dt w h pd).y ∧ (moveAgent rsqrt a dt w h pd).y ≤ h) ∧
    ∀ px py vdx vdy : ℚ,
      0 ≤ (ecsMoveStep rsqrt px py vdx vdy dt w h).1.1 ∧
      (ecsMoveStep rsqrt px py vdx vdy dt w h).1.1 ≤ w ∧
      0 ≤ (ecsMoveStep rsqrt px py vdx vdy dt w h).1.2 ∧
      (ecsMoveStep rsqrt px py vdx vdy dt w h).1.2 ≤ h := by
  constructor
  · simp only [moveAgent]
    split_ifs <;>
      exact ⟨by linarith, by linarith, by linarith, by linarith⟩
  · intro px py vdx vdy
    simp only [ecsMoveStep]
    split_ifs <;>
      exact ⟨by linarith, by linarith, by linarith, by linarith⟩

/-- Witness for C10 at a concrete agent crossing the right edge of a
100 by 80 world. -/
theorem movement_wraps_into_bounds_witness :
    ((0 : ℚ) ≤ 100 ∧ (0 : ℚ) ≤ 80) ∧
    (0 ≤ (moveAgent rsqrtZero moveTestAgent 40 100 80 noPerturb).x ∧
      (moveAgent rsqrtZero moveTestAgent 40 100 80 noPerturb).x ≤ 100 ∧
      0 ≤ (moveAgent rsqrtZero moveTestAgent 40 100 80 noPerturb).y ∧
      (moveAgent rsqrtZero moveTestAgent 40 100 80 noPerturb).y ≤ 80) ∧
    (0 ≤ (ecsMoveStep rsqrtZero 10 10 3 4 40 100 80).1.1 ∧
      (ecsMoveStep rsqrtZero 10 10 3 4 40 100 80).1.1 ≤ 100 ∧
      0 ≤ (ecsMoveStep rsqrtZero 10 10 3 4 40 100 80).1.2 ∧
      (ecsMoveStep rsqrtZero 10 10 3 4 40 100 80).1.2 ≤ 80) :=
  ⟨⟨by norm_num, by norm_num⟩,
   (movement_wraps_into_bounds rsqrtZero moveTestAgent 40 100 80 noPerturb
     (by norm_num) (by norm_num)).1,
   (movement_wraps_into_bounds rsqrtZero moveTestAgent 40 100 80 noPerturb
     (by norm_num) (by norm_num)).2 10 10 3 4⟩

/-- C5 counterexample input: a predator with energy 90 of 100 and a target
set. -/
def fightAttacker : Agent :=
  { Agent.new 0 0 predGenes 0 1 0 with energy := 90, targetX := some 0, targetY := some 0 }

/-- C5 counterexample input: a prey opponent with energy 50 at the same
position. -/
def fightVictim : Agent :=
  { Agent.new 0 0 preyGenes 0 1 0 with energy := 50 }

/-- C5 counterexample: the combat energy gain is not clamped, so the winning
predator ends the fight alive with energy 90 + 50 * 1.2 + 20 * 2 = 190,
above its max_energy of 100. -/
theorem fight_gain_exceeds_max_energy :
    (fightAgent rsqrtZero fightAttacker [fightVictim]).energy = 190 ∧
    (fightAgent rsqrtZero fightAttacker [fightVictim]).maxEnergy = 100 ∧
    (fightAgent rsqrtZero fightAttacker [fightVictim]).isDying = false ∧
    ¬ ((fightAgent rsqrtZero fightAttacker [fightVictim]).energy ≤
        (fightAgent rsqrtZero fightAttacker [fightVictim]).maxEnergy) := by
  norm_num [fightAgent, fightAttacker, fightVictim, Agent.new, predGenes, preyGenes,
    Agent.isPredatorA, Agent.isPreyA, rsqrtZero, distSq, List.find?]

/-- seek_targets only changes the state, target and velocity fields. -/
theorem seekTargets_preserves (rsqrt : ℚ → ℚ) (a : Agent) (resources : List Resource)
    (agents : List Agent) (angleC angleS : ℚ) :
    (seekTargets rsqrt a resources agents angleC angleS).energy = a.energy ∧
    (seekTargets rsqrt a resources agents angleC angleS).isDying = a.isDying := by
  unfold seekTargets randomMovement
  dsimp only
  repeat' split
  all_goals exact ⟨rfl, rfl⟩

/-- hunt_target only changes the state and velocity fields. -/
theorem huntTarget_preserves (rsqrt : ℚ → ℚ) (a : Agent) :
    (huntTarget rsqrt a).energy = a.energy ∧
    (huntTarget rsqrt a).isDying = a.isDying := by
  unfold huntTarget
  dsimp only
  repeat' split
  all_goals exact ⟨rfl, rfl⟩

/-- flee_from_danger only changes the state, target and velocity fields. -/
theorem fleeFromDanger_preserves (rsqrt : ℚ → ℚ) (a : Agent) :
    (fleeFromDanger rsqrt a).energy = a.energy ∧
    (fleeFromDanger rsqrt a).isDying = a.isDying := by
  unfold fleeFromDanger
  dsimp only
  repeat' split
  all_goals exact ⟨rfl, rfl⟩

/-- move_agent only changes the position and velocity fields. -/
theorem moveAgent_preserves (rsqrt : ℚ → ℚ) (a : Agent) (dt w h : ℚ) (pd : PerturbDraw) :
    (moveAgent rsqrt a dt w h pd).energy = a.energy ∧
    (moveAgent rsqrt a dt w h pd).isDying = a.isDying ∧
    (moveAgent rsqrt a dt w h pd).maxEnergy = a.maxEnergy :=
  ⟨rfl, rfl, rfl⟩

/-- When feed_on_resource runs on an agent with positive energy, nonnegative
energy efficiency and positive max_energy, the result has positive energy
and an unchanged dying flag. -/
theorem feedOnResource_energy_pos (rsqrt : ℚ → ℚ) (a : Agent)
    (resources : List Resource) (ha : 0 < a.energy)
    (heff : 0 ≤ a.genes.energyEfficiency) (hmax : 0 < a.maxEnergy) :
    0 < (feedOnResource rsqrt a resources).1.energy ∧
    (feedOnResource rsqrt a resources).1.isDying = a.isDying := by
  unfold feedOnResource
  dsimp only
  repeat' split
  all_goals refine ⟨?_, rfl⟩
  all_goals dsimp only
  all_goals linarith

/-- When fight_agent runs on an agent with positive energy, nonnegative
attack power and opponents of nonnegative energy, then either the agent is
marked dying or its energy stays positive. -/
theorem fightAgent_energy_pos (rsqrt : ℚ → ℚ) (a : Agent) (agents : List Agent)
    (ha : 0 < a.energy) (hatk : 0 ≤ a.genes.attackPower)
    (hopp : ∀ b ∈ agents, 0 ≤ b.energy) :
    (fightAgent rsqrt a agents).isDying = false →
    0 < (fightAgent rsqrt a agents).energy := by
  intro hres
  unfold fightAgent at hres ⊢
  cases hx : a.targetX with
  | none => simp only [hx] at hres ⊢; exact ha
  | some tx =>
    cases hy : a.targetY with
    | none => simp only [hx, hy] at hres ⊢; exact ha
    | some ty =>
      simp only [hx, hy] at hres ⊢
      cases hf : agents.find? (fun (b : Agent) =>
          decide (rsqrt (distSq b.x b.y a.x a.y) < 5)) with
      | none => simp only [hf] at hres ⊢; exact ha
      | some b =>
        have hb : 0 ≤ b.energy := hopp b (List.mem_of_find?_eq_some hf)
        simp only [hf] at hres ⊢
        split_ifs at hres ⊢ with hwin hgain hrep hrep hgain hrep hrep hneg hneg
        all_goals simp_all
        all_goals nlinarith [hb, hatk, ha]

/-- The age and fade step touches only the age and spawnFade fields. -/
theorem ageFadeStep_preserves (a : Agent) (dt : ℚ) :
    (ageFadeStep a dt).energy = a.energy ∧
    (ageFadeStep a dt).isDying = a.isDying ∧
    (ageFadeStep a dt).genes = a.genes ∧
    (ageFadeStep a dt).maxEnergy = a.maxEnergy ∧
    (ageFadeStep a dt).state = a.state := by
  unfold ageFadeStep
  dsimp only
  split_ifs
  all_goals exact ⟨rfl, rfl, rfl, rfl, rfl⟩

/-- The energy debit step touches only the energy field. -/
theorem energyDebitStep_preserves (a : Agent) (dt w h : ℚ) :
    (energyDebitStep a dt w h).isDying = a.isDying ∧
    (energyDebitStep a dt w h).genes = a.genes ∧
    (energyDebitStep a dt w h).maxEnergy = a.maxEnergy ∧
    (energyDebitStep a dt w h).state = a.state :=
  ⟨rfl, rfl, rfl, rfl⟩

/-- Under the C5 hypotheses, the state action either marks the agent dying
or leaves its energy positive. -/
theorem actionStep_energy_pos (rsqrt : ℚ → ℚ) (b : Agent)
    (resources : List Resource) (agents : List Agent) (d : AgentDraws)
    (hb : 0 < b.energy) (heff : 0 ≤ b.genes.energyEfficiency)
    (hmax : 0 < b.maxEnergy) (hatk : 0 ≤ b.genes.attackPower)
    (hopp : ∀ c ∈ agents, 0 ≤ c.energy) :
    (actionStep rsqrt b resources agents d).1.isDying = false →
    0 < (actionStep rsqrt b resources agents d).1.energy := by
  unfold actionStep
  cases hstate : b.state with
  | seeking =>
    dsimp only
    intro _
    rw [(seekTargets_preserves rsqrt b resources agents d.seekC d.seekS).1]
    exact hb
  | hunting =>
    dsimp only
    intro _
    rw [(huntTarget_preserves rsqrt b).1]
    exact hb
  | feeding =>
    dsimp only
    intro _
    exact (feedOnResource_energy_pos rsqrt b resources hb heff hmax).1
  | reproducing =>
    dsimp only [reproduceAct]
    intro _
    nlinarith [hb]
  | fighting =>
    dsimp only
    exact fightAgent_energy_pos rsqrt b agents hb hatk hopp
  | fleeing =>
    dsimp only
    intro _
    rw [(fleeFromDanger_preserves rsqrt b).1]
    exact hb

/-- C5 amended: every operation of the per-tick agent update that can push
energy to zero or below (the metabolic debit, combat damage) marks the agent
dying, and feeding only adds a nonnegative clamped gain, so an agent that
leaves Agent::update not marked dying has strictly positive energy -
provided its efficiency and attack power are nonnegative, its max_energy is
positive and the opponents it can fight have nonnegative energy. The upper
bound of the claim fails: the combat gain of a winner is not clamped to
max_energy. -/
theorem agent_update_live_energy_positive (rsqrt : ℚ → ℚ) (a : Agent) (dt : ℚ)
    (resources : List Resource) (agents : List Agent) (w h : ℚ) (d : AgentDraws)
    (heff : 0 ≤ a.genes.energyEfficiency) (hmax : 0 < a.maxEnergy)
    (hatk : 0 ≤ a.genes.attackPower) (hopp : ∀ b ∈ agents, 0 ≤ b.energy) :
    (agentUpdate rsqrt a dt resources agents w h d).1.isDying = false →
    0 < (agentUpdate rsqrt a dt resources agents w h d).1.energy := by
  intro hres
  unfold agentUpdate at hres ⊢
  dsimp only at hres ⊢
  by_cases hdy : (ageFadeStep a dt).isDying
  · rw [if_pos hdy] at hres ⊢
    dsimp only at hres ⊢
    rw [hdy] at hres
    exact Bool.noConfusion hres
  · rw [if_neg hdy] at hres ⊢
    by_cases hzero : (energyDebitStep (ageFadeStep a dt) dt w h).energy ≤ 0
    · rw [if_pos hzero] at hres ⊢
      dsimp only at hres ⊢
      exact Bool.noConfusion hres
    · rw [if_neg hzero] at hres ⊢
      by_cases hage : (energyDebitStep (ageFadeStep a dt) dt w h).age > 200
      · rw [if_pos hage] at hres ⊢
        dsimp only at hres ⊢
        exact Bool.noConfusion hres
      · rw [if_neg hage] at hres ⊢
        dsimp only at hres ⊢
        have hgenes : (energyDebitStep (ageFadeStep a dt) dt w h).genes = a.genes := by
          rw [(energyDebitStep_preserves (ageFadeStep a dt) dt w h).2.1,
            (ageFadeStep_preserves a dt).2.2.1]
        have hmaxe : (energyDebitStep (ageFadeStep a dt) dt w h).maxEnergy = a.maxEnergy := by
          rw [(energyDebitStep_preserves (ageFadeStep a dt) dt w h).2.2.1,
            (ageFadeStep_preserves a dt).2.2.2.1]
        have hact := actionStep_energy_pos rsqrt (energyDebitStep (ageFadeStep a dt) dt w h)
          resources agents d (lt_of_not_le hzero) (by rw [hgenes]; exact heff)
          (by rw [hmaxe]; exact hmax) (by rw [hgenes]; exact hatk) hopp
        set step := actionStep rsqrt (energyDebitStep (ageFadeStep a dt) dt w h)
          resources agents d with hstep
        have hmv := moveAgent_preserves rsqrt step.1 dt w h d.perturb
        by_cases hcr : (moveAgent rsqrt step.1 dt w h d.perturb).canReproduce
        · rw [if_pos hcr] at hres ⊢
          dsimp only at hres ⊢
          rw [hmv.1]
          exact hact (by rw [← hmv.2.1]; exact hres)
        · rw [if_neg hcr] at hres ⊢
          rw [hmv.1]
          exact hact (by rw [← hmv.2.1]; exact hres)

/-- C5 witness input: a fresh seeking agent. -/
def liveTestAgent : Agent := Agent.new 0 0 preyGenes 0 1 0

/-- C5 witness input: the per-update draws. -/
def liveTestDraws : AgentDraws := ⟨1, 0, ⟨1, 0, 0⟩⟩

/-- Witness for C5 amended: a fresh agent updated against empty resource and
agent lists satisfies every hypothesis, leaves the update not dying, and so
has positive energy. -/
theorem agent_update_live_energy_positive_witness :
    ((0:ℚ) ≤ liveTestAgent.genes.energyEfficiency ∧
      (0:ℚ) < liveTestAgent.maxEnergy ∧
      (0:ℚ) ≤ liveTestAgent.genes.attackPower ∧
      (∀ b ∈ ([] : List Agent), (0:ℚ) ≤ b.energy)) ∧
    (agentUpdate rsqrtZero liveTestAgent (1/60) [] [] 100 100 liveTestDraws).1.isDying
      = false ∧
    ((agentUpdate rsqrtZero liveTestAgent (1/60) [] [] 100 100 liveTestDraws).1.isDying
        = false →
      0 < (agentUpdate rsqrtZero liveTestAgent (1/60) [] [] 100 100
        liveTestDraws).1.energy) :=
  ⟨⟨by norm_num [liveTestAgent, Agent.new, preyGenes],
    by norm_num [liveTestAgent, Agent.new, preyGenes],
    by norm_num [liveTestAgent, Agent.new, preyGenes],
    by simp⟩,
   by norm_num [agentUpdate, ageFadeStep, energyDebitStep, actionStep, seekTargets,
     randomMovement, moveAgent, perturbVel, Agent.canReproduce, Agent.isPredatorA,
     Agent.isPreyA, Agent.new, preyGenes, liveTestAgent, liveTestDraws, rsqrtZero,
     beatsBest, distSq],
   agent_update_live_energy_positive rsqrtZero liveTestAgent (1/60) [] [] 100 100
     liveTestDraws (by norm_num [liveTestAgent, Agent.new, preyGenes])
     (by norm_num [liveTestAgent, Agent.new, preyGenes])
     (by norm_num [liveTestAgent, Agent.new, preyGenes])
     (by simp)⟩

/-- C2 input: an agent at the origin with energy 60, age 3 and a
distinguishing generation, eligible both to reproduce and to be a mate. -/
def reproTestAgent (g : ℕ) : Agent :=
  { Agent.new 0 0 preyGenes g 1 0 with energy := 60, age := 3 }

/-- C2 input: six mutually eligible agents below every population gate of a
max_agents = 10 simulation. -/
def reproTestAgents : List Agent :=
  [reproTestAgent 0, reproTestAgent 1, reproTestAgent 2,
   reproTestAgent 3, reproTestAgent 4, reproTestAgent 5]

/-- C2 input: reproduction draws that pick the first mate and always pass
the coin flip. -/
def reproTestDraws : ℕ → ReproDraw := fun _ => ⟨0, 0, testOffspringDraws⟩

/-- C2: the parallel reproduction path checks only the start-of-tick count
against max_agents, so six eligible agents in a max_agents = 10 world - a
state that passes both population-pressure gates - each produce an
offspring, ending the pass with 12 live agents, above the cap. -/
theorem parallel_reproduction_pass_overshoots_cap :
    (reproductionPhaseParallel rsqrtZero reproTestAgents 10 reproTestDraws).length = 12 ∧
    10 < (reproductionPhaseParallel rsqrtZero reproTestAgents 10 reproTestDraws).length := by
  norm_num [reproductionPhaseParallel, reproductionGateBlocks, parallelReproductionPass,
    reproTestAgents, reproTestAgent, reproTestDraws, Agent.new, preyGenes,
    Agent.canReproduce, Agent.idNum, ratCastU64, mateFilter, chooseMate, rsqrtZero,
    distSq, List.enum, List.enumFrom, List.filterMap, List.filter]

/-- The sequential reproduction path counts in-pass offspring in its cap
check, so it never pushes the population above max_agents when it starts at
or below it. -/
theorem sequential_reproduction_pass_respects_cap (rsqrt : ℚ → ℚ)
    (agents : List Agent) (maxAgents : ℕ) (draws : ℕ → ReproDraw)
    (hstart : agents.length ≤ maxAgents) :
    (sequentialReproductionPass rsqrt agents maxAgents draws).length ≤ maxAgents := by
  unfold sequentialReproductionPass
  dsimp only
  rw [List.length_append]
  suffices h : ∀ (l : List (ℕ × Agent)) (acc : List Agent),
      agents.length + acc.length ≤ maxAgents →
      agents.length + (l.foldl (fun (acc : List Agent) (p : ℕ × Agent) =>
        if p.2.canReproduce = true then
          match chooseMate (agents.filter (mateFilter rsqrt p.2)) (draws p.1).mateIdx with
          | some mate =>
            if agents.length + acc.length < maxAgents then
              if (draws p.1).coinU < 1/2 then
                acc ++ [createOffspring p.2 mate (draws p.1).offspring]
              else acc
            else acc
          | none => acc
        else acc) acc).length ≤ maxAgents by
    simpa using h agents.enum [] (by simpa using hstart)
  intro l
  induction l with
  | nil => intro acc hacc; simpa using hacc
  | cons p t ih =>
    intro acc hacc
    rw [List.foldl_cons]
    by_cases hcr : p.2.canReproduce = true
    · rw [if_pos hcr]
      cases hcm : chooseMate (agents.filter (mateFilter rsqrt p.2)) (draws p.1).mateIdx with
      | none =>
        dsimp only
        exact ih acc hacc
      | some mate =>
        dsimp only
        by_cases hlen : agents.length + acc.length < maxAgents
        · rw [if_pos hlen]
          by_cases hcoin : (draws p.1).coinU < 1/2
          · rw [if_pos hcoin]
            refine ih _ ?_
            rw [List.length_append]
            simpa using hlen
          · rw [if_neg hcoin]
            exact ih acc hacc
        · rw [if_neg hlen]
          exact ih acc hacc
    · rw [if_neg hcr]
      exact ih acc hacc

/-- C3 input: an agent whose energy is exactly 0 at tick start. -/
def deadTestAgent : Agent := { Agent.new 0 0 preyGenes 0 1 0 with energy := 0 }

/-- C3 input: a max_agents = 10 simulation holding seven dead-at-start
agents, enough for the population-growth gate (7/10 > 0.6) to fire. -/
def pressureSim : Simulation :=
  { agents := [deadTestAgent, deadTestAgent, deadTestAgent, deadTestAgent,
               deadTestAgent, deadTestAgent, deadTestAgent]
    resources := [], width := 100, height := 100, time := 0, resourceSpawnTimer := 0
    maxAgents := 10, maxResources := 5 }

/-- C3 input: the per-tick draws (never consulted on this input's path). -/
def pressureDraws : SimDraws :=
  { agent := fun _ => ⟨1, 0, ⟨1, 0, 0⟩⟩, repro := fun _ => ⟨0, 0, testOffspringDraws⟩
    spawnX := 0, spawnY := 0, spawnInitialEnergy := 0, spawnMaxEnergy := 0
    spawnGrowthRate := 0, spawnRegenRate := 0 }

/-- C3: the population-pressure checks return from Simulation::update before
the cleanup retain, so one update call on seven agents that all had energy 0
at tick start leaves all seven in the live set, each with negative energy,
marked dying, and failing is_alive - the dead-agent removal step did not
run. -/
theorem update_skips_cleanup_under_population_pressure :
    (simUpdateSequential rsqrtZero pressureSim pressureDraws id).agents.length = 7 ∧
    ∀ a ∈ (simUpdateSequential rsqrtZero pressureSim pressureDraws id).agents,
      a.energy < 0 ∧ a.isDying = true ∧ a.isAlive = false := by
  norm_num [simUpdateSequential, pressureSim, pressureDraws, deadTestAgent, agentUpdate,
    ageFadeStep, energyDebitStep, Agent.new, preyGenes, Agent.isAlive, rsqrtZero,
    reproductionGateBlocks, List.enum, List.enumFrom, testOffspringDraws]

/-- Floors of values at distance at most z differ by at most the ceiling of
z. -/
theorem floor_sub_floor_le_ceil (x y z : ℚ) (h : x - y ≤ z) : ⌊x⌋ - ⌊y⌋ ≤ ⌈z⌉ := by
  have hx : x ≤ y + (⌈z⌉ : ℚ) := by
    have := Int.le_ceil z
    linarith
  have h2 : ⌊x⌋ ≤ ⌊y + (⌈z⌉ : ℚ)⌋ := Int.floor_le_floor hx
  rw [Int.floor_add_int] at h2
  omega

/-- Two points within distance r of each other land in raw grid columns at
most ceil(r / cellSize) apart. -/
theorem abs_floor_div_diff_le (a b c r : ℚ) (hc : 0 < c) (h : |a - b| ≤ r) :
    |⌊a / c⌋ - ⌊b / c⌋| ≤ ⌈r / c⌉ := by
  rw [abs_le] at h
  rw [abs_le]
  constructor
  · have hd : b / c - a / c ≤ r / c := by
      rw [div_sub_div_same]
      exact (div_le_div_iff_of_pos_right hc).mpr (by linarith)
    have := floor_sub_floor_le_ceil (b / c) (a / c) (r / c) hd
    omega
  · have hd : a / c - b / c ≤ r / c := by
      rw [div_sub_div_same]
      exact (div_le_div_iff_of_pos_right hc).mpr (by linarith)
    exact floor_sub_floor_le_ceil (a / c) (b / c) (r / c) hd

/-- Clamping by the same upper bound cannot increase the distance between
two cell coordinates. -/
theorem clamped_cell_diff (p q M : ℕ) (k : ℤ) (h : |(p : ℤ) - (q : ℤ)| ≤ k) :
    |((min p M : ℕ) : ℤ) - ((min q M : ℕ) : ℤ)| ≤ k := by
  rw [abs_le] at h ⊢
  omega

/-- Membership in the inclusive integer range. -/
theorem mem_intRange (lo hi k : ℤ) : k ∈ intRange lo hi ↔ lo ≤ k ∧ k ≤ hi := by
  unfold intRange
  rw [List.mem_map]
  constructor
  · rintro ⟨n, hn, rfl⟩
    rw [List.mem_range] at hn
    omega
  · intro h
    refine ⟨(k - lo).toNat, ?_, by omega⟩
    rw [List.mem_range]
    omega

/-- Every indexed position is listed in the grid cell it falls in. -/
theorem mem_gridCellContents (cs : ℚ) (gw gh : ℕ) (positions : List (ℚ × ℚ))
    (i : ℕ) (p : ℚ × ℚ) (hget : positions.get? i = some p) :
    i ∈ gridCellContents cs gw gh positions (gridPos cs gw gh p.1 p.2) := by
  unfold gridCellContents
  refine List.mem_filter.mpr ⟨List.mem_range.mpr ?_, ?_⟩
  · exact (List.get?_eq_some.mp hget).1
  · rw [hget]
    simp

/-- The scaled-radius query visits every cell within the grid radius of the
query cell, so an index whose cell is close enough and inside the grid is
returned. -/
theorem mem_getNearbyAgents_of (cs : ℚ) (gw gh : ℕ) (positions : List (ℚ × ℚ))
    (x y radius : ℚ) (i : ℕ) (p : ℚ × ℚ)
    (hget : positions.get? i = some p)
    (hdx : |((gridPos cs gw gh p.1 p.2).1 : ℤ) - ((gridPos cs gw gh x y).1 : ℤ)| ≤
      (Int.toNat ⌈radius / cs⌉ : ℤ))
    (hdy : |((gridPos cs gw gh p.1 p.2).2 : ℤ) - ((gridPos cs gw gh x y).2 : ℤ)| ≤
      (Int.toNat ⌈radius / cs⌉ : ℤ))
    (hbx : (gridPos cs gw gh p.1 p.2).1 < gw)
    (hby : (gridPos cs gw gh p.1 p.2).2 < gh) :
    i ∈ getNearbyAgents cs gw gh positions x y radius := by
  unfold getNearbyAgents
  dsimp only
  refine List.mem_flatMap.mpr
    ⟨((gridPos cs gw gh p.1 p.2).1 : ℤ) - ((gridPos cs gw gh x y).1 : ℤ), ?_, ?_⟩
  · rw [mem_intRange]
    rw [abs_le] at hdx
    omega
  · refine List.mem_flatMap.mpr
      ⟨((gridPos cs gw gh p.1 p.2).2 : ℤ) - ((gridPos cs gw gh x y).2 : ℤ), ?_, ?_⟩
    · rw [mem_intRange]
      rw [abs_le] at hdy
      omega
    · rw [if_pos (by omega)]
      have ex : (((gridPos cs gw gh x y).1 : ℤ) +
          (((gridPos cs gw gh p.1 p.2).1 : ℤ) - ((gridPos cs gw gh x y).1 : ℤ))).toNat =
          (gridPos cs gw gh p.1 p.2).1 := by omega
      have ey : (((gridPos cs gw gh x y).2 : ℤ) +
          (((gridPos cs gw gh p.1 p.2).2 : ℤ) - ((gridPos cs gw gh x y).2 : ℤ))).toNat =
          (gridPos cs gw gh p.1 p.2).2 := by omega
      rw [ex, ey, Prod.mk.eta]
      exact mem_gridCellContents cs gw gh positions i p hget

/-- The one-cell-neighbourhood legacy query returns an index whose cell is
at most one cell away, inside the grid, and whose exact distance passes the
filter. -/
theorem mem_getNearbyAgentsLegacy_of (rsqrt : ℚ → ℚ) (cs : ℚ) (gw gh : ℕ)
    (positions : List (ℚ × ℚ)) (x y radius : ℚ) (i : ℕ) (p : ℚ × ℚ)
    (hget : positions.get? i = some p)
    (hdx : |((gridPos cs gw gh p.1 p.2).1 : ℤ) - ((gridPos cs gw gh x y).1 : ℤ)| ≤ 1)
    (hdy : |((gridPos cs gw gh p.1 p.2).2 : ℤ) - ((gridPos cs gw gh x y).2 : ℤ)| ≤ 1)
    (hbx : (gridPos cs gw gh p.1 p.2).1 < gw)
    (hby : (gridPos cs gw gh p.1 p.2).2 < gh)
    (hfilter : rsqrt (distSq p.1 p.2 x y) ≤ radius) :
    i ∈ getNearbyAgentsLegacy rsqrt cs gw gh positions x y radius := by
  unfold getNearbyAgentsLegacy
  dsimp only
  refine List.mem_flatMap.mpr
    ⟨((gridPos cs gw gh p.1 p.2).1 : ℤ) - ((gridPos cs gw gh x y).1 : ℤ), ?_, ?_⟩
  · rw [mem_intRange]
    rw [abs_le] at hdx
    omega
  · refine List.mem_flatMap.mpr
      ⟨((gridPos cs gw gh p.1 p.2).2 : ℤ) - ((gridPos cs gw gh x y).2 : ℤ), ?_, ?_⟩
    · rw [mem_intRange]
      rw [abs_le] at hdy
      omega
    · rw [if_pos (by omega)]
      have ex : (((gridPos cs gw gh x y).1 : ℤ) +
          (((gridPos cs gw gh p.1 p.2).1 : ℤ) - ((gridPos cs gw gh x y).1 : ℤ))).toNat =
          (gridPos cs gw gh p.1 p.2).1 := by omega
      have ey : (((gridPos cs gw gh x y).2 : ℤ) +
          (((gridPos cs gw gh p.1 p.2).2 : ℤ) - ((gridPos cs gw gh x y).2 : ℤ))).toNat =
          (gridPos cs gw gh p.1 p.2).2 := by omega
      rw [ex, ey, Prod.mk.eta]
      refine List.mem_filter.mpr ⟨mem_gridCellContents cs gw gh positions i p hget, ?_⟩
      rw [hget]
      simpa using hfilter

/-- C4 amended: the nearby-agent query omits no indexed agent whose exact
Euclidean distance to the query point is within the radius - for any radius
in the Simulation::get_nearby_agents version, whose scanned cell
neighbourhood scales as ceil(radius / cell_size); and for radii up to one
cell size in the LegacySimulationEngine version, which scans only the
adjacent cells (its exact-distance filter is satisfied whenever the oracle
value is the true nonnegative square root of the squared distance). -/
theorem nearby_query_no_false_negatives (rsqrt : ℚ → ℚ) (cs : ℚ) (gw gh : ℕ)
    (positions : List (ℚ × ℚ)) (x y radius : ℚ) (i : ℕ) (p : ℚ × ℚ)
    (hcs : 0 < cs) (hgw : 1 ≤ gw) (hgh : 1 ≤ gh)
    (hget : positions.get? i = some p)
    (hpx : 0 ≤ p.1) (hpy : 0 ≤ p.2) (hx : 0 ≤ x) (hy : 0 ≤ y) (hr : 0 ≤ radius)
    (hdist : distSq p.1 p.2 x y ≤ radius ^ 2) :
    i ∈ getNearbyAgents cs gw gh positions x y radius ∧
    (radius ≤ cs → 0 ≤ rsqrt (distSq p.1 p.2 x y) →
      rsqrt (distSq p.1 p.2 x y) ^ 2 = distSq p.1 p.2 x y →
      i ∈ getNearbyAgentsLegacy rsqrt cs gw gh positions x y radius) := by
  have hdist' : (p.1 - x) ^ 2 + (p.2 - y) ^ 2 ≤ radius ^ 2 := by
    have := hdist
    unfold distSq at this
    linarith
  have hx2 : (p.1 - x) ^ 2 ≤ radius ^ 2 := by nlinarith [sq_nonneg (p.2 - y)]
  have hy2 : (p.2 - y) ^ 2 ≤ radius ^ 2 := by nlinarith [sq_nonneg (p.1 - x)]
  have habsx : |p.1 - x| ≤ radius := by
    rw [abs_le]
    constructor <;> nlinarith [hx2, hr]
  have habsy : |p.2 - y| ≤ radius := by
    rw [abs_le]
    constructor <;> nlinarith [hy2, hr]
  have hfloorx := abs_floor_div_diff_le p.1 x cs radius hcs habsx
  have hfloory := abs_floor_div_diff_le p.2 y cs radius hcs habsy
  have epx : ((Int.toNat ⌊p.1 / cs⌋ : ℕ) : ℤ) = ⌊p.1 / cs⌋ :=
    Int.toNat_of_nonneg (Int.floor_nonneg.mpr (div_nonneg hpx hcs.le))
  have epy : ((Int.toNat ⌊p.2 / cs⌋ : ℕ) : ℤ) = ⌊p.2 / cs⌋ :=
    Int.toNat_of_nonneg (Int.floor_nonneg.mpr (div_nonneg hpy hcs.le))
  have eqx : ((Int.toNat ⌊x / cs⌋ : ℕ) : ℤ) = ⌊x / cs⌋ :=
    Int.toNat_of_nonneg (Int.floor_nonneg.mpr (div_nonneg hx hcs.le))
  have eqy : ((Int.toNat ⌊y / cs⌋ : ℕ) : ℤ) = ⌊y / cs⌋ :=
    Int.toNat_of_nonneg (Int.floor_nonneg.mpr (div_nonneg hy hcs.le))
  have hcellx : |((gridPos cs gw gh p.1 p.2).1 : ℤ) - ((gridPos cs gw gh x y).1 : ℤ)| ≤
      ⌈radius / cs⌉ := by
    unfold gridPos
    dsimp only
    exact clamped_cell_diff _ _ _ _ (by rw [epx, eqx]; exact hfloorx)
  have hcelly : |((gridPos cs gw gh p.1 p.2).2 : ℤ) - ((gridPos cs gw gh x y).2 : ℤ)| ≤
      ⌈radius / cs⌉ := by
    unfold gridPos
    dsimp only
    exact clamped_cell_diff _ _ _ _ (by rw [epy, eqy]; exact hfloory)
  have egr : ((Int.toNat ⌈radius / cs⌉ : ℕ) : ℤ) = ⌈radius / cs⌉ :=
    Int.toNat_of_nonneg (Int.ceil_nonneg (div_nonneg hr hcs.le))
  have hbx : (gridPos cs gw gh p.1 p.2).1 < gw := by
    unfold gridPos
    dsimp only
    have := min_le_right (Int.toNat ⌊p.1 / cs⌋) (gw - 1)
    omega
  have hby : (gridPos cs gw gh p.1 p.2).2 < gh := by
    unfold gridPos
    dsimp only
    have := min_le_right (Int.toNat ⌊p.2 / cs⌋) (gh - 1)
    omega
  constructor
  · exact mem_getNearbyAgents_of cs gw gh positions x y radius i p hget
      (by rw [egr]; exact hcellx) (by rw [egr]; exact hcelly) hbx hby
  · intro hradcs hrs0 hrs2
    have hone : ⌈radius / cs⌉ ≤ (1 : ℤ) := by
      rw [Int.ceil_le]
      push_cast
      exact (div_le_one hcs).mpr hradcs
    have hfilter : rsqrt (distSq p.1 p.2 x y) ≤ radius := by
      nlinarith [hrs0, hr, hrs2, hdist]
    exact mem_getNearbyAgentsLegacy_of rsqrt cs gw gh positions x y radius i p hget
      (le_trans hcellx hone) (le_trans hcelly hone) hbx hby hfilter

/-- C4 witness input: one agent at (10, 10) in a 1000 by 800 world gridded
at cell size 50. -/
def gridTestPositions : List (ℚ × ℚ) := [(10, 10)]

/-- C4 witness input: a square-root oracle exact at the only squared
distance (100) the witness consults. -/
def rsqrtHundred : ℚ → ℚ := fun q => if q = 100 then 10 else 0

/-- Witness for C4 amended at query point (20, 10) and radius 30: the agent
at distance 10 is returned by both query versions. -/
theorem nearby_query_no_false_negatives_witness :
    ((0:ℚ) < 50 ∧ 1 ≤ 20 ∧ 1 ≤ 16 ∧ gridTestPositions.get? 0 = some ((10 : ℚ), (10 : ℚ)) ∧
      (0:ℚ) ≤ 10 ∧ (0:ℚ) ≤ 20 ∧ (0:ℚ) ≤ 30 ∧
      distSq 10 10 20 10 ≤ (30 : ℚ) ^ 2 ∧ (30 : ℚ) ≤ 50 ∧
      0 ≤ rsqrtHundred (distSq 10 10 20 10) ∧
      rsqrtHundred (distSq 10 10 20 10) ^ 2 = distSq 10 10 20 10) ∧
    0 ∈ getNearbyAgents 50 20 16 gridTestPositions 20 10 30 ∧
    0 ∈ getNearbyAgentsLegacy rsqrtHundred 50 20 16 gridTestPositions 20 10 30 :=
  ⟨⟨by norm_num, by norm_num, by norm_num, by norm_num [gridTestPositions], by norm_num,
    by norm_num, by norm_num, by norm_num [distSq], by norm_num,
    by norm_num [rsqrtHundred, distSq], by norm_num [rsqrtHundred, distSq]⟩,
   (nearby_query_no_false_negatives rsqrtHundred 50 20 16 gridTestPositions 20 10 30 0
     (10, 10) (by norm_num) (by norm_num) (by norm_num) (by norm_num [gridTestPositions])
     (by norm_num) (by norm_num) (by norm_num) (by norm_num) (by norm_num)
     (by norm_num [distSq])).1,
   (nearby_query_no_false_negatives rsqrtHundred 50 20 16 gridTestPositions 20 10 30 0
     (10, 10) (by norm_num) (by norm_num) (by norm_num) (by norm_num [gridTestPositions])
     (by norm_num) (by norm_num) (by norm_num) (by norm_num) (by norm_num)
     (by norm_num [distSq])).2 (by norm_num)
     (by norm_num [rsqrtHundred, distSq]) (by norm_num [rsqrtHundred, distSq])⟩

/-- C4 counterexample input: one agent at (150.5, 10), three cells to the
right of the query cell. -/
def farPositions : List (ℚ × ℚ) := [(301/2, 10)]

/-- C4 counterexample: with radius 300 - six cells - the agent at exact
distance 150 is inside the radius, yet the legacy one-cell-neighbourhood
query returns the empty list: a false negative for a radius larger than one
grid cell. -/
theorem legacy_query_misses_agent_within_radius :
    distSq (301/2) 10 (1/2) 10 ≤ (300 : ℚ) ^ 2 ∧
    getNearbyAgentsLegacy rsqrtZero 50 20 16 farPositions (1/2) 10 300 = [] ∧
    ¬ (0 ∈ getNearbyAgentsLegacy rsqrtZero 50 20 16 farPositions (1/2) 10 300) := by
  refine ⟨by norm_num [distSq], ?_, ?_⟩
  · norm_num [getNearbyAgentsLegacy, gridPos, gridCellContents, intRange, farPositions,
      rsqrtZero, distSq, List.range_succ]
    omega
  · norm_num [getNearbyAgentsLegacy, gridPos, gridCellContents, intRange, farPositions,
      rsqrtZero, distSq, List.range_succ]
    omega

end Battleo
